import Mathlib

/-!
Shallow embedding of the FUP logic-network simulator (src/main.py).

Python objects live on a heap: `Variable` objects are stored in a
`List Variable` indexed by natural-number references, mirroring the fact
that the global dictionary `VARIABLES` and every `PortItem.variable`
attribute hold references to the same mutable objects.  The dictionary
`VARIABLES` is a `Store`: an association list from names to heap
references plus the heap itself.  Machine floats (`time.time()`,
`delay`) are modelled as rationals; the timer logic only compares and
subtracts them.
-/

namespace FUP

/-- Embeds class `Variable` (src/main.py lines 90-96): name, kind tag
(stored lower-case: "eingang" / "ausgang" / "merker") and boolean value. -/
structure Variable where
  name : String
  var_type : String
  value : Bool
deriving DecidableEq

def defaultVariable : Variable := ⟨"", "", false⟩

/-- Dereference a heap reference (a Python attribute access `obj.field`
on a live object; references held by ports are always live). -/
def readVar (heap : List Variable) (vid : Nat) : Variable :=
  heap.getD vid defaultVariable

/-- Embeds the state of class `PortItem` (src/main.py lines 658-676):
direction flag `is_input`, text label, the `variable` attribute as an
optional heap reference (`var_ref`), the negation flag, the value
`_internal_value` and the optional direct time entry `time_value`.
`gate_id` models object identity of `parent_gate`, `port_id` models the
identity of the port itself. -/
structure PortItem where
  gate_id : Nat
  port_id : Nat
  is_input : Bool
  label : String
  var_ref : Option Nat
  negated : Bool
  internal_value : Bool
  time_value : Option ℚ
deriving DecidableEq

/-- Embeds `PortItem.__init__` (lines 660-676): fresh ports start with
no variable, no negation, internal value `False` and no time value. -/
def PortItem.init (gid pid : Nat) (is_input : Bool) (label : String) : PortItem :=
  { gate_id := gid, port_id := pid, is_input := is_input, label := label,
    var_ref := none, negated := false, internal_value := false, time_value := none }

/-- Embeds `PortItem.get_value` (lines 693-702).  `incoming` is the
result of `get_incoming_wire_value` (lines 686-692): the resolved value
of the source port of an incoming wire, or `none` when no wire ends at
this port; it is passed in explicitly because the embedding has no
ambient scene object. -/
def PortItem.get_value (p : PortItem) (heap : List Variable) (incoming : Option Bool) : Bool :=
  let val :=
    match incoming with
    | some v => v
    | none =>
      match p.var_ref with
      | some vid => (readVar heap vid).value
      | none => p.internal_value
  if p.negated then !val else val

/-- Embeds `PortItem.set_value` (lines 703-708): always overwrites
`_internal_value`, and when a variable is bound also overwrites that
shared heap object in place.  There is no direction check and no error
path in the source. -/
def PortItem.set_value (p : PortItem) (heap : List Variable) (value : Bool) :
    PortItem × List Variable :=
  let p1 := { p with internal_value := value }
  match p.var_ref with
  | some vid => (p1, heap.set vid { readVar heap vid with value := value })
  | none => (p1, heap)

/-- The global dictionary `VARIABLES` (line 57) together with the heap
of `Variable` objects it references. -/
structure Store where
  heap : List Variable
  vars : List (String × Nat)
deriving DecidableEq

/-- Dictionary lookup `VARIABLES[name]` as an optional reference. -/
def Store.get (s : Store) (name : String) : Option Nat :=
  (s.vars.find? (fun kv => kv.1 == name)).map (fun kv => kv.2)

/-- Embeds the delete branch of
`FilteredVariableListWidget.contextMenuEvent` (lines 277-285):
`if var_name in VARIABLES: del VARIABLES[var_name]`.  Only the
dictionary entry is removed; the heap object survives (ports may still
reference it) and no port is touched. -/
def delete_variable (s : Store) (name : String) : Store :=
  if (s.get name).isSome then
    { s with vars := s.vars.filter (fun kv => kv.1 != name) }
  else s

/-- Embeds the kind filter of `VariableAssignmentDialog.__init__`
(lines 183-190): the list `valid_types` offered for a port of the given
direction. -/
def VariableAssignmentDialog.valid_types (is_input : Bool) : List String :=
  if is_input then ["eingang", "ausgang", "merker"] else ["ausgang", "merker"]

/-- A variable is offered in the assignment combo box iff its kind is in
`valid_types` (lines 188-190). -/
def VariableAssignmentDialog.offers (is_input : Bool) (v : Variable) : Bool :=
  (VariableAssignmentDialog.valid_types is_input).contains v.var_type

/-- Embeds `PortItem.dropEvent` (lines 750-760): when the dragged name
is in `VARIABLES`, the port binds to that variable unconditionally (no
direction or kind check); otherwise the drop is ignored. -/
def PortItem.dropEvent (p : PortItem) (s : Store) (var_name : String) : PortItem :=
  match s.get var_name with
  | some vid => { p with var_ref := some vid }
  | none => p

/-- Embeds the state of class `GateItem` (lines 476-526): gate kind
string, the ordered input and output port lists, and the kind-specific
state fields `memory`, `start_time`, `delay`, `prev_input` (all present
on every instance, lines 490-493). -/
structure GateItem where
  gate_type : String
  input_ports : List PortItem
  output_ports : List PortItem
  memory : Bool
  start_time : Option ℚ
  delay : ℚ
  prev_input : Bool
deriving DecidableEq

/-- Embeds `GateItem.__init__` (lines 478-526): every gate starts with
`memory = False`, `start_time = None`, `delay = 1.0`,
`prev_input = False`, and gets the per-kind port layout (graphics
positions are dropped; `gid` models the identity of the gate and port
ids are numbered within the gate). -/
def GateItem.init (gate_type : String) (gid : Nat) : GateItem :=
  let base : GateItem :=
    { gate_type := gate_type, input_ports := [], output_ports := [],
      memory := false, start_time := none, delay := 1, prev_input := false }
  if gate_type = "AND" ∨ gate_type = "OR" ∨ gate_type = "XOR" then
    { base with
      input_ports := [PortItem.init gid 0 true "", PortItem.init gid 1 true ""],
      output_ports := [PortItem.init gid 2 false ""] }
  else if gate_type = "SR" then
    { base with
      input_ports := [PortItem.init gid 0 true "S", PortItem.init gid 1 true "R"],
      output_ports := [PortItem.init gid 2 false "Q"] }
  else if gate_type = "RS" then
    { base with
      input_ports := [PortItem.init gid 0 true "R", PortItem.init gid 1 true "S"],
      output_ports := [PortItem.init gid 2 false "Q"] }
  else if gate_type = "=" then
    { base with
      input_ports := [PortItem.init gid 0 true ""],
      output_ports := [PortItem.init gid 1 false ""] }
  else if gate_type = "TON" ∨ gate_type = "TOF" then
    { base with
      input_ports := [PortItem.init gid 0 true "", PortItem.init gid 1 true "T"],
      output_ports := [PortItem.init gid 2 false ""] }
  else if gate_type = "FP" then
    { base with
      input_ports := [PortItem.init gid 0 true ""],
      output_ports := [PortItem.init gid 1 false ""] }
  else if gate_type = "FN" then
    { base with
      input_ports := [PortItem.init gid 0 true ""],
      output_ports := [PortItem.init gid 1 false ""] }
  else base

/-- Embeds the result/state part of `GateItem.compute_output`
(lines 558-647), up to but not including the writes to the output
ports.  `incoming` maps a port id to the resolved value carried by an
incoming wire, if any (see `PortItem.get_value`); `now` is the value of
`time.time()` for this evaluation; `parseF` models the Python builtin
`float(...)` applied to a variable name (`none` models `ValueError`).
Branches that would raise `IndexError` on a malformed port list map to
`(false, g)`: the exception is caught at line 648 with `result` still
`False` and no state mutated. -/
def GateItem.compute_result (g : GateItem) (heap : List Variable)
    (incoming : Nat → Option Bool) (now : ℚ) (parseF : String → Option ℚ) :
    Bool × GateItem :=
  let inVal : PortItem → Bool := fun ip => ip.get_value heap (incoming ip.port_id)
  if g.gate_type = "AND" then
    if g.input_ports.isEmpty then (false, g)
    else (g.input_ports.foldl (fun r ip => r && inVal ip) true, g)
  else if g.gate_type = "OR" then
    (g.input_ports.foldl (fun r ip => r || inVal ip) false, g)
  else if g.gate_type = "XOR" then
    (g.input_ports.foldl (fun accum ip => accum != inVal ip) false, g)
  else if g.gate_type = "SR" then
    match g.input_ports with
    | pS :: pR :: _ =>
      let S := inVal pS
      let R := inVal pR
      let result :=
        if S && !R then true
        else if R && !S then false
        else if S && R then true
        else g.memory
      (result, { g with memory := result })
    | _ => (false, g)
  else if g.gate_type = "RS" then
    match g.input_ports with
    | pR :: pS :: _ =>
      let R := inVal pR
      let S := inVal pS
      let result :=
        if R && !S then false
        else if S && !R then true
        else if R && S then false
        else g.memory
      (result, { g with memory := result })
    | _ => (false, g)
  else if g.gate_type = "=" then
    match g.input_ports with
    | ip :: _ => (inVal ip, g)
    | [] => (false, g)
  else if g.gate_type = "TON" ∨ g.gate_type = "TOF" then
    match g.input_ports with
    | control_port :: t_port :: _ =>
      let control := inVal control_port
      let delay_val : Option ℚ :=
        match t_port.var_ref with
        | some vid =>
          match parseF (readVar heap vid).name with
          | some f => some f
          | none => some g.delay
        | none => t_port.time_value
      let g1 : GateItem :=
        match delay_val with
        | some d => { g with delay := d }
        | none => g
      if g.gate_type = "TON" then
        if control then
          let st := g1.start_time.getD now
          (decide (g1.delay ≤ now - st), { g1 with start_time := some st })
        else
          (false, { g1 with start_time := none })
      else
        if !control then
          let st := g1.start_time.getD now
          (!(decide (g1.delay ≤ now - st)), { g1 with start_time := some st })
        else
          (true, { g1 with start_time := none })
    | _ => (false, g)
  else if g.gate_type = "FP" then
    let current :=
      match g.input_ports with
      | ip :: _ => inVal ip
      | [] => false
    (current && !g.prev_input, { g with prev_input := current })
  else if g.gate_type = "FN" then
    let current :=
      match g.input_ports with
      | ip :: _ => inVal ip
      | [] => false
    ((!current) && g.prev_input, { g with prev_input := current })
  else (false, g)

/-- Embeds the final loop of `GateItem.compute_output` (lines 654-655):
`for port in self.output_ports: port.set_value(result)`, threading the
heap through the successive writes. -/
def write_outputs (ports : List PortItem) (heap : List Variable) (result : Bool) :
    List PortItem × List Variable :=
  match ports with
  | [] => ([], heap)
  | p :: rest =>
    let pr := p.set_value heap result
    let rec1 := write_outputs rest pr.2 result
    (pr.1 :: rec1.1, rec1.2)

/-- Embeds `GateItem.compute_output` (lines 558-656) as a whole:
compute the result and new gate state, then write the result to every
output port (updating bound variables on the heap). -/
def GateItem.compute_output (g : GateItem) (heap : List Variable)
    (incoming : Nat → Option Bool) (now : ℚ) (parseF : String → Option ℚ) :
    Bool × GateItem × List Variable :=
  let r := g.compute_result heap incoming now parseF
  let w := write_outputs r.2.output_ports heap r.1
  (r.1, { r.2 with output_ports := w.1 }, w.2)

/-- Embeds a `WireItem` (lines 830-837): directed edge between two port
identities. -/
structure WireItem where
  source_port : Nat
  dest_port : Nat
deriving DecidableEq

/-- Embeds the connection-completing branch of
`PortItem.mousePressEvent` (lines 772-798), as its effect on the set of
wires of the scene.  `src` is `scene.active_connection_source`, `tgt`
is the clicked port.  Clicking the source again, clicking a port of the
same gate, a direction mismatch, or an equivalent existing wire (checked
in both orientations) all leave the wire set unchanged; otherwise the
new wire is added. -/
def connect_click (wires : List WireItem) (src tgt : PortItem) : List WireItem :=
  if src.port_id = tgt.port_id then wires
  else if src.gate_id = tgt.gate_id then wires
  else if (src.is_input && !tgt.is_input) || (!src.is_input && tgt.is_input) then
    let source := if src.is_input then tgt else src
    let destination := if src.is_input then src else tgt
    let already := wires.any (fun w =>
      (w.source_port == source.port_id && w.dest_port == destination.port_id) ||
      (w.source_port == destination.port_id && w.dest_port == source.port_id))
    if already then wires else wires ++ [⟨source.port_id, destination.port_id⟩]
  else wires

/-! Concrete states used to instantiate the theorems below. -/

/-- A store holding one input-kind variable "X" with value `true`. -/
def storeX : Store := ⟨[⟨"X", "eingang", true⟩], [("X", 0)]⟩

/-- An input port bound to the variable "X" of `storeX`, with latched
internal value `false`. -/
def portBoundX : PortItem := { PortItem.init 0 0 true "" with var_ref := some 0 }

/-- A store holding one input-kind variable "S1" (as the preset
`("S1", "Eingang", False)` creates, line 64). -/
def storeS1 : Store := ⟨[⟨"S1", "eingang", false⟩], [("S1", 0)]⟩

/-- A store holding one memory-kind variable "M1". -/
def storeM1 : Store := ⟨[⟨"M1", "merker", false⟩], [("M1", 0)]⟩

/-- A fresh output port (as on the right edge of every gate). -/
def freshOutputPort : PortItem := PortItem.init 0 0 false ""

/-- A fresh input port whose latched internal value was written `true`. -/
def highInputPort : PortItem := { PortItem.init 0 0 true "" with internal_value := true }

/-- An SR gate whose S port reads `true` and whose R port reads `false`. -/
def srGateExample : GateItem :=
  { gate_type := "SR",
    input_ports := [highInputPort, PortItem.init 0 1 true "R"],
    output_ports := [], memory := false, start_time := none, delay := 1,
    prev_input := false }

/-- An RS gate whose R port reads `true` and whose S port reads `true`. -/
def rsGateExample : GateItem :=
  { gate_type := "RS",
    input_ports := [{ highInputPort with label := "R" },
                    { PortItem.init 0 1 true "S" with internal_value := true }],
    output_ports := [], memory := true, start_time := none, delay := 1,
    prev_input := false }

/-- A TON gate whose control port reads `true`, with no time source. -/
def tonGateOn : GateItem :=
  { gate_type := "TON",
    input_ports := [highInputPort, PortItem.init 0 1 true "T"],
    output_ports := [], memory := false, start_time := none, delay := 1,
    prev_input := false }

/-- A TON gate whose control port reads `false`, previously armed. -/
def tonGateOff : GateItem :=
  { gate_type := "TON",
    input_ports := [PortItem.init 0 0 true "", PortItem.init 0 1 true "T"],
    output_ports := [], memory := false, start_time := some 0, delay := 1,
    prev_input := false }

/-- An output port bound to variable 0 of a one-variable heap. -/
def writerPort : PortItem := { PortItem.init 0 0 false "" with var_ref := some 0 }

/-- An input port of another gate bound to the same variable 0. -/
def readerPort : PortItem := { PortItem.init 1 1 true "" with var_ref := some 0 }

/-- A one-variable heap with an output-kind variable "Q1". -/
def heapQ1 : List Variable := [⟨"Q1", "ausgang", false⟩]

/-- An AND gate with no input ports (the edge case of C10). -/
def andGateEmpty : GateItem :=
  { gate_type := "AND", input_ports := [], output_ports := [],
    memory := false, start_time := none, delay := 1, prev_input := false }

/-- An input port of gate 0. -/
def inPortA : PortItem := PortItem.init 0 0 true ""

/-- An input port of gate 1. -/
def inPortB : PortItem := PortItem.init 1 1 true ""

/-- An output port of the same gate 0 as `inPortA`. -/
def outPortA : PortItem := PortItem.init 0 2 false ""

/-- An output port of gate 2. -/
def outPortC : PortItem := PortItem.init 2 3 false ""

/-- An existing wire from `outPortC` to `inPortB`. -/
def wireCB : WireItem := ⟨3, 1⟩

/-! Helper lemmas shared across claims. -/

theorem find_filter_bne (l : List (String × Nat)) (n : String) :
    (l.filter (fun kv => kv.1 != n)).find? (fun kv => kv.1 == n) = none := by
  rw [List.find?_eq_none]
  intro kv hkv
  have hmem := List.of_mem_filter hkv
  simpa using hmem

theorem readVar_set_self (heap : List Variable) (vid : Nat) (v : Variable)
    (h : vid < heap.length) : readVar (heap.set vid v) vid = v := by
  simp [readVar, List.getD, List.getElem?_set_self, h]

theorem foldl_and_eq_all (f : PortItem → Bool) (l : List PortItem) (b : Bool) :
    l.foldl (fun r ip => r && f ip) b = (b && l.all f) := by
  induction l generalizing b with
  | nil => simp
  | cons a l ih => simp [List.foldl_cons, ih, Bool.and_assoc]

theorem any_wire_swap (l : List WireItem) (a b : Nat) :
    l.any (fun w => (w.source_port == a && w.dest_port == b) ||
                    (w.source_port == b && w.dest_port == a))
      = l.any (fun w => (w.source_port == b && w.dest_port == a) ||
                        (w.source_port == a && w.dest_port == b)) := by
  induction l with
  | nil => rfl
  | cons x l ih =>
    cases hx : (x.source_port == a && x.dest_port == b) <;>
      cases hy : (x.source_port == b && x.dest_port == a) <;>
        simp [List.any_cons, hx, hy, ih]

/-! Claims. -/

/-- Claim C1, counterexample.  The claim states that after deleting a
Variable every Port that referenced it is unbound and reads its latched
value.  Here the port `portBoundX` (latched value `false`) references
the variable "X" (value `true`); after `delete_variable storeX "X"` its
read still yields `true`, the value of the deleted Variable object, not
the latched `false`, and `var_ref` is still set. -/
theorem claim1_counterexample :
    ¬ (portBoundX.get_value (delete_variable storeX "X").heap none
        = portBoundX.internal_value) ∧
    (portBoundX.var_ref = some 0) := by
  constructor
  · decide
  · rfl

/-- Claim C1, amended: deleting a Variable removes only its entry from
the registry dictionary and never throws; it does not unbind any Port.
The heap object survives, every Port keeps its reference, and every
Port read is unchanged (in particular a bound Port keeps reading the
deleted Variable object rather than falling back to its latched
value). -/
theorem claim1_delete_leaves_ports_bound (s : Store) (n : String)
    (p : PortItem) (inc : Option Bool) :
    (delete_variable s n).heap = s.heap ∧
    Store.get (delete_variable s n) n = none ∧
    p.get_value (delete_variable s n).heap inc = p.get_value s.heap inc := by
  refine ⟨?_, ?_, ?_⟩
  · unfold delete_variable
    by_cases h : (s.get n).isSome <;> simp [h]
  · cases hsg : s.get n with
    | none => simp [delete_variable, hsg]
    | some vid =>
      have hd : delete_variable s n
          = { s with vars := s.vars.filter (fun kv => kv.1 != n) } := by
        simp [delete_variable, hsg]
      rw [hd]
      simp [Store.get, find_filter_bne]
  · unfold delete_variable
    by_cases h : (s.get n).isSome <;> simp [h]

/-- Claim C2, counterexample.  The claim states that a bind operation
on an Output Port succeeds only for Variables of kind Output or Memory.
Dropping the input-kind variable "S1" on the output port
`freshOutputPort` binds it anyway (`dropEvent` performs no kind
check). -/
theorem claim2_counterexample :
    freshOutputPort.is_input = false ∧
    (freshOutputPort.dropEvent storeS1 "S1").var_ref = some 0 ∧
    (readVar storeS1.heap 0).var_type = "eingang" := by
  refine ⟨rfl, by decide, rfl⟩

/-- Claim C2, amended: only the assignment dialog enforces the kind
rule — for an Output Port it offers exactly the Variables of kind
Output ("ausgang") or Memory ("merker") — while the drag-and-drop bind
(`dropEvent`) succeeds for every existing Variable regardless of kind,
so an Output Port can become bound to an Input-kind Variable. -/
theorem claim2_bind_paths :
    (∀ v : Variable, VariableAssignmentDialog.offers false v = true ↔
        (v.var_type = "ausgang" ∨ v.var_type = "merker")) ∧
    (∀ (p : PortItem) (s : Store) (n : String) (vid : Nat),
        s.get n = some vid → (p.dropEvent s n).var_ref = some vid) := by
  constructor
  · intro v
    simp [VariableAssignmentDialog.offers, VariableAssignmentDialog.valid_types]
  · intro p s n vid h
    simp [PortItem.dropEvent, h]

/-- Claim C2, witness for `claim2_bind_paths`: the dialog offers the
output-kind variable "Q1" to an output port, and dropping "M1" on a
fresh output port binds it. -/
theorem claim2_witness :
    VariableAssignmentDialog.offers false ⟨"Q1", "ausgang", false⟩ = true ∧
    (freshOutputPort.dropEvent storeM1 "M1").var_ref = some 0 :=
  ⟨(claim2_bind_paths.1 ⟨"Q1", "ausgang", false⟩).mpr (Or.inl rfl),
    claim2_bind_paths.2 freshOutputPort storeM1 "M1" 0 (by decide)⟩

/-- Claim C4: the resolved value of a Port applies the negation flag to
exactly one source — the incoming-wire value when a wire exists (then
neither the binding nor the latched value matters, as the statement is
independent of them), else the bound Variable value when bound, else
the latched internal value. -/
theorem claim4_resolved_value (p : PortItem) (heap : List Variable) :
    (∀ v : Bool, p.get_value heap (some v) = (if p.negated then !v else v)) ∧
    (∀ vid : Nat, p.var_ref = some vid →
        p.get_value heap none =
          (if p.negated then !(readVar heap vid).value else (readVar heap vid).value)) ∧
    (p.var_ref = none →
        p.get_value heap none =
          (if p.negated then !p.internal_value else p.internal_value)) := by
  refine ⟨fun v => rfl, fun vid h => ?_, fun h => ?_⟩
  · simp [PortItem.get_value, h]
  · simp [PortItem.get_value, h]

/-- Claim C4, witness for `claim4_resolved_value`: a wire value wins
over everything, a bound variable wins over the latch, and an unbound
wireless port reads its latch. -/
theorem claim4_witness :
    portBoundX.get_value storeX.heap (some false) = false ∧
    portBoundX.get_value storeX.heap none = true ∧
    freshOutputPort.get_value storeX.heap none = false := by
  refine ⟨?_, ?_, ?_⟩
  · have h := (claim4_resolved_value portBoundX storeX.heap).1 false
    simpa using h
  · have h := (claim4_resolved_value portBoundX storeX.heap).2.1 0 rfl
    simpa using h
  · have h := (claim4_resolved_value freshOutputPort storeX.heap).2.2 rfl
    simpa using h

/-- Claim C9, counterexample.  The claim states that writing an Input
Port is disallowed and signals a usage error, never a silent state
change.  `set_value` on a fresh input port silently changes its latched
value from `false` to `true` and signals nothing. -/
theorem claim9_counterexample :
    (PortItem.init 0 0 true "").is_input = true ∧
    ((PortItem.init 0 0 true "").set_value [] true).1.internal_value = true ∧
    ((PortItem.init 0 0 true "").set_value [] true).1.internal_value
      ≠ (PortItem.init 0 0 true "").internal_value := by
  refine ⟨rfl, rfl, by decide⟩

/-- Claim C9, amended: `set_value` performs no direction check and has
no error path: its behaviour is identical whatever the direction flag
is (writing an Input Port silently updates the latched value and any
bound Variable exactly as for an Output Port); the restriction to
Output Ports exists only as a caller convention. -/
theorem claim9_silent_input_write (p : PortItem) (heap : List Variable)
    (v : Bool) (b : Bool) :
    ({ p with is_input := b } : PortItem).set_value heap v
      = ({ (p.set_value heap v).1 with is_input := b }, (p.set_value heap v).2) ∧
    (p.set_value heap v).1.internal_value = v := by
  cases p with
  | mk gid pid isin lab vr neg iv tv =>
    cases vr <;> simp [PortItem.set_value]

/-- Claim C3, counterexample.  The claim states that every FN gate
starts with `previousSample = true`; the constructor sets
`prev_input = False` for every gate kind (line 493), including FN. -/
theorem claim3_counterexample : ¬ ((GateItem.init "FN" 0).prev_input = true) := by
  decide

/-- Claim C3, amended: every FN gate starts with
`previousSample = false` (not `true`); on each evaluation the result is
`¬current ∧ previousSample` and `previousSample` is then set to
`current`; hence the FN output on the very first tick is `false`
whatever the first sample is — in particular when it is `true`. -/
theorem claim3_fn_init_and_step :
    (∀ gid : Nat, (GateItem.init "FN" gid).prev_input = false) ∧
    (∀ (g : GateItem) (heap : List Variable) (incoming : Nat → Option Bool)
        (now : ℚ) (parseF : String → Option ℚ) (ip : PortItem) (rest : List PortItem),
      g.gate_type = "FN" → g.input_ports = ip :: rest →
      (g.compute_output heap incoming now parseF).1
          = (!(ip.get_value heap (incoming ip.port_id)) && g.prev_input) ∧
      (g.compute_output heap incoming now parseF).2.1.prev_input
          = ip.get_value heap (incoming ip.port_id)) ∧
    (∀ (gid : Nat) (heap : List Variable) (incoming : Nat → Option Bool)
        (now : ℚ) (parseF : String → Option ℚ),
      ((GateItem.init "FN" gid).compute_output heap incoming now parseF).1 = false) := by
  have hstep : ∀ (g : GateItem) (heap : List Variable) (incoming : Nat → Option Bool)
      (now : ℚ) (parseF : String → Option ℚ) (ip : PortItem) (rest : List PortItem),
      g.gate_type = "FN" → g.input_ports = ip :: rest →
      (g.compute_output heap incoming now parseF).1
          = (!(ip.get_value heap (incoming ip.port_id)) && g.prev_input) ∧
      (g.compute_output heap incoming now parseF).2.1.prev_input
          = ip.get_value heap (incoming ip.port_id) := by
    intro g heap incoming now parseF ip rest hg hports
    have hfst : (g.compute_output heap incoming now parseF).1
        = (g.compute_result heap incoming now parseF).1 := rfl
    have hprev : (g.compute_output heap incoming now parseF).2.1.prev_input
        = (g.compute_result heap incoming now parseF).2.prev_input := rfl
    rw [hfst, hprev]
    constructor <;> simp [GateItem.compute_result, hg, hports]
  refine ⟨fun gid => rfl, hstep, ?_⟩
  intro gid heap incoming now parseF
  have h := (hstep (GateItem.init "FN" gid) heap incoming now parseF
      (PortItem.init gid 0 true "") [] rfl rfl).1
  rw [h]
  have hprev0 : (GateItem.init "FN" gid).prev_input = false := rfl
  rw [hprev0]
  simp

/-- Claim C3, witness for `claim3_fn_init_and_step`: a fresh FN gate
whose input wire carries `true` outputs `false` on the first tick and
stores `true` as the new previous sample. -/
theorem claim3_witness :
    ((GateItem.init "FN" 0).compute_output [] (fun _ => some true) 0 (fun _ => none)).1
        = false ∧
    ((GateItem.init "FN" 0).compute_output [] (fun _ => some true) 0 (fun _ => none)).2.1.prev_input
        = true := by
  have h := claim3_fn_init_and_step.2.1 (GateItem.init "FN" 0) []
      (fun _ => some true) 0 (fun _ => none) (PortItem.init 0 0 true "") [] rfl rfl
  exact ⟨h.1.trans (by decide), h.2.trans (by decide)⟩

/-- Claim C5: with S and R the resolved input values, an SR gate
computes `true` when S ∧ ¬R, `false` when R ∧ ¬S, `true` when S ∧ R
(Set wins), and its previous memory otherwise; an RS gate (ports
ordered R then S) computes `false` when R ∧ ¬S, `true` when S ∧ ¬R,
`false` when R ∧ S (Reset wins), and its previous memory otherwise;
both store the result in `memory` on every evaluation. -/
theorem claim5_sr_rs :
    (∀ (g : GateItem) (heap : List Variable) (incoming : Nat → Option Bool)
        (now : ℚ) (parseF : String → Option ℚ) (pS pR : PortItem)
        (rest : List PortItem) (S R : Bool),
      g.gate_type = "SR" → g.input_ports = pS :: pR :: rest →
      pS.get_value heap (incoming pS.port_id) = S →
      pR.get_value heap (incoming pR.port_id) = R →
      (g.compute_output heap incoming now parseF).1
          = (if S && !R then true else if R && !S then false
             else if S && R then true else g.memory) ∧
      (g.compute_output heap incoming now parseF).2.1.memory
          = (g.compute_output heap incoming now parseF).1) ∧
    (∀ (g : GateItem) (heap : List Variable) (incoming : Nat → Option Bool)
        (now : ℚ) (parseF : String → Option ℚ) (pR pS : PortItem)
        (rest : List PortItem) (S R : Bool),
      g.gate_type = "RS" → g.input_ports = pR :: pS :: rest →
      pR.get_value heap (incoming pR.port_id) = R →
      pS.get_value heap (incoming pS.port_id) = S →
      (g.compute_output heap incoming now parseF).1
          = (if R && !S then false else if S && !R then true
             else if R && S then false else g.memory) ∧
      (g.compute_output heap incoming now parseF).2.1.memory
          = (g.compute_output heap incoming now parseF).1) := by
  constructor
  · intro g heap incoming now parseF pS pR rest S R hg hports hS hR
    have hfst : (g.compute_output heap incoming now parseF).1
        = (g.compute_result heap incoming now parseF).1 := rfl
    have hmem : (g.compute_output heap incoming now parseF).2.1.memory
        = (g.compute_result heap incoming now parseF).2.memory := rfl
    constructor
    · rw [hfst]
      simp [GateItem.compute_result, hg, hports, hS, hR]
    · rw [hmem, hfst]
      simp [GateItem.compute_result, hg, hports]
  · intro g heap incoming now parseF pR pS rest S R hg hports hR hS
    have hfst : (g.compute_output heap incoming now parseF).1
        = (g.compute_result heap incoming now parseF).1 := rfl
    have hmem : (g.compute_output heap incoming now parseF).2.1.memory
        = (g.compute_result heap incoming now parseF).2.memory := rfl
    constructor
    · rw [hfst]
      simp [GateItem.compute_result, hg, hports, hS, hR]
    · rw [hmem, hfst]
      simp [GateItem.compute_result, hg, hports]

/-- Claim C5, witness for `claim5_sr_rs`: the SR example (S true,
R false, memory false) outputs `true`; the RS example (R true, S true,
memory true) outputs `false` (Reset wins). -/
theorem claim5_witness :
    (srGateExample.compute_output [] (fun _ => none) 0 (fun _ => none)).1 = true ∧
    (rsGateExample.compute_output [] (fun _ => none) 0 (fun _ => none)).1 = false := by
  have h1 := (claim5_sr_rs.1 srGateExample [] (fun _ => none) 0 (fun _ => none)
      highInputPort (PortItem.init 0 1 true "R") [] true false rfl rfl
      (by decide) (by decide)).1
  have h2 := (claim5_sr_rs.2 rsGateExample [] (fun _ => none) 0 (fun _ => none)
      { highInputPort with label := "R" }
      { PortItem.init 0 1 true "S" with internal_value := true } [] true true rfl rfl
      (by decide) (by decide)).1
  exact ⟨h1.trans (by decide), h2.trans (by decide)⟩

/-- Claim C6: for a TON gate, when the resolved control input is
`true`, `start_time` is set to the current time if it was unset (kept
otherwise) and the output is `true` iff the elapsed time since arming
is at least the (current) delay; when the control input is `false`,
`start_time` is cleared and the output is `false` on that same
evaluation. -/
theorem claim6_ton (g : GateItem) (heap : List Variable)
    (incoming : Nat → Option Bool) (now : ℚ) (parseF : String → Option ℚ)
    (cp tp : PortItem) (rest : List PortItem)
    (hg : g.gate_type = "TON") (hports : g.input_ports = cp :: tp :: rest) :
    (cp.get_value heap (incoming cp.port_id) = true →
      (g.compute_output heap incoming now parseF).2.1.start_time
          = some (g.start_time.getD now) ∧
      ((g.compute_output heap incoming now parseF).1 = true ↔
        (g.compute_output heap incoming now parseF).2.1.delay
          ≤ now - g.start_time.getD now)) ∧
    (cp.get_value heap (incoming cp.port_id) = false →
      (g.compute_output heap incoming now parseF).2.1.start_time = none ∧
      (g.compute_output heap incoming now parseF).1 = false) := by
  have hfst : (g.compute_output heap incoming now parseF).1
      = (g.compute_result heap incoming now parseF).1 := rfl
  have hst : (g.compute_output heap incoming now parseF).2.1.start_time
      = (g.compute_result heap incoming now parseF).2.start_time := rfl
  have hdl : (g.compute_output heap incoming now parseF).2.1.delay
      = (g.compute_result heap incoming now parseF).2.delay := rfl
  constructor
  · intro hc
    rw [hst, hfst, hdl]
    rcases htv : tp.var_ref with _ | vid
    · rcases htt : tp.time_value with _ | t <;>
        simp [GateItem.compute_result, hg, hports, hc, htv, htt, decide_eq_true_iff]
    · rcases hpf : parseF (readVar heap vid).name with _ | f <;>
        simp [GateItem.compute_result, hg, hports, hc, htv, hpf, decide_eq_true_iff]
  · intro hc
    rw [hst, hfst]
    rcases htv : tp.var_ref with _ | vid
    · rcases htt : tp.time_value with _ | t <;>
        simp [GateItem.compute_result, hg, hports, hc, htv, htt]
    · rcases hpf : parseF (readVar heap vid).name with _ | f <;>
        simp [GateItem.compute_result, hg, hports, hc, htv, hpf]

/-- Claim C6, witness for `claim6_ton`: with the control high,
`tonGateOn` arms itself at the current time and its output reflects the
elapsed-time test; with the control low, `tonGateOff` clears its armed
time and outputs `false` immediately. -/
theorem claim6_witness :
    ((tonGateOn.compute_output [] (fun _ => none) 0 (fun _ => none)).2.1.start_time
        = some (tonGateOn.start_time.getD 0) ∧
      ((tonGateOn.compute_output [] (fun _ => none) 0 (fun _ => none)).1 = true ↔
        (tonGateOn.compute_output [] (fun _ => none) 0 (fun _ => none)).2.1.delay
          ≤ 0 - tonGateOn.start_time.getD 0)) ∧
    ((tonGateOff.compute_output [] (fun _ => none) 0 (fun _ => none)).2.1.start_time
        = none ∧
      (tonGateOff.compute_output [] (fun _ => none) 0 (fun _ => none)).1 = false) := by
  constructor
  · exact (claim6_ton tonGateOn [] (fun _ => none) 0 (fun _ => none)
      highInputPort (PortItem.init 0 1 true "T") [] rfl rfl).1 (by decide)
  · exact (claim6_ton tonGateOff [] (fun _ => none) 0 (fun _ => none)
      (PortItem.init 0 0 true "") (PortItem.init 0 1 true "T") [] rfl rfl).2 (by decide)

/-- Claim C7: writing a boolean to a bound Output Port updates its
latched value and, within the same write, the bound Variable on the
heap, so any other Port bound to the same Variable (wireless,
non-negated) immediately resolves to the new value. -/
theorem claim7_write_through (p q : PortItem) (heap : List Variable) (b : Bool)
    (vid : Nat) (hp : p.var_ref = some vid) (hq : q.var_ref = some vid)
    (hv : vid < heap.length) (hneg : q.negated = false) :
    (p.set_value heap b).1.internal_value = b ∧
    (readVar (p.set_value heap b).2 vid).value = b ∧
    q.get_value (p.set_value heap b).2 none = b := by
  have hsv : p.set_value heap b
      = ({ p with internal_value := b },
         heap.set vid { readVar heap vid with value := b }) := by
    simp [PortItem.set_value, hp]
  rw [hsv]
  refine ⟨rfl, ?_, ?_⟩
  · rw [readVar_set_self _ _ _ hv]
  · simp [PortItem.get_value, hq, hneg, readVar_set_self _ _ _ hv]

/-- Claim C7, witness for `claim7_write_through`: writing `true` to
`writerPort` (bound to variable 0 of `heapQ1`) latches `true`, sets the
variable to `true`, and `readerPort` (a port of another gate bound to
the same variable) immediately reads `true`. -/
theorem claim7_witness :
    (writerPort.set_value heapQ1 true).1.internal_value = true ∧
    (readVar (writerPort.set_value heapQ1 true).2 0).value = true ∧
    readerPort.get_value (writerPort.set_value heapQ1 true).2 none = true :=
  claim7_write_through writerPort readerPort heapQ1 true 0 rfl rfl (by decide) rfl

/-- Claim C8: an attempted wire connection fails — leaving the wire set
unchanged — when the two ports have the same direction (direction
mismatch), when they belong to the same gate, or when an equivalent
wire already exists in either orientation. -/
theorem claim8_connect_failures (wires : List WireItem) (src tgt : PortItem) :
    (src.is_input = tgt.is_input → connect_click wires src tgt = wires) ∧
    (src.gate_id = tgt.gate_id → connect_click wires src tgt = wires) ∧
    (wires.any (fun w =>
        (w.source_port == src.port_id && w.dest_port == tgt.port_id) ||
        (w.source_port == tgt.port_id && w.dest_port == src.port_id)) = true →
      connect_click wires src tgt = wires) := by
  refine ⟨?_, ?_, ?_⟩
  · intro hdir
    unfold connect_click
    by_cases h1 : src.port_id = tgt.port_id
    · simp [h1]
    · by_cases h2 : src.gate_id = tgt.gate_id
      · simp [h1, h2]
      · have hcond : ((src.is_input && !tgt.is_input)
            || (!src.is_input && tgt.is_input)) = false := by
          rw [hdir]
          cases tgt.is_input <;> simp
        simp [h1, h2, hcond]
  · intro hsame
    unfold connect_click
    by_cases h1 : src.port_id = tgt.port_id
    · simp [h1]
    · simp [h1, hsame]
  · intro hdup
    unfold connect_click
    by_cases h1 : src.port_id = tgt.port_id
    · simp [h1]
    · by_cases h2 : src.gate_id = tgt.gate_id
      · simp [h1, h2]
      · by_cases h3 : ((src.is_input && !tgt.is_input)
            || (!src.is_input && tgt.is_input)) = true
        · cases hsrc : src.is_input
          · simp [h1, h2, h3, hsrc, hdup]
          · have hal : wires.any (fun w =>
                (w.source_port == tgt.port_id && w.dest_port == src.port_id) ||
                (w.source_port == src.port_id && w.dest_port == tgt.port_id)) = true := by
              rw [any_wire_swap]
              exact hdup
            simp [h1, h2, h3, hsrc, hal]
        · simp [h1, h2, h3]

/-- Claim C8, witness for `claim8_connect_failures`: connecting two
input ports, connecting two ports of the same gate, and duplicating the
existing wire `wireCB` each leave the wire set unchanged. -/
theorem claim8_witness :
    connect_click [] inPortA inPortB = [] ∧
    connect_click [] outPortA inPortA = [] ∧
    connect_click [wireCB] outPortC inPortB = [wireCB] :=
  ⟨(claim8_connect_failures [] inPortA inPortB).1 rfl,
   (claim8_connect_failures [] outPortA inPortA).2.1 rfl,
   (claim8_connect_failures [wireCB] outPortC inPortB).2.2 (by decide)⟩

/-- Claim C10: an AND gate with an empty input-port list evaluates to
`false` (the code defines the case totally), and with a non-empty list
it evaluates to the conjunction of the resolved values of all its input
ports. -/
theorem claim10_and_total (g : GateItem) (heap : List Variable)
    (incoming : Nat → Option Bool) (now : ℚ) (parseF : String → Option ℚ)
    (hg : g.gate_type = "AND") :
    (g.input_ports = [] →
      (g.compute_output heap incoming now parseF).1 = false) ∧
    (g.input_ports ≠ [] →
      (g.compute_output heap incoming now parseF).1
        = g.input_ports.all (fun ip => ip.get_value heap (incoming ip.port_id))) := by
  have hfst : (g.compute_output heap incoming now parseF).1
      = (g.compute_result heap incoming now parseF).1 := rfl
  constructor
  · intro he
    rw [hfst]
    simp [GateItem.compute_result, hg, he]
  · intro hne
    rw [hfst]
    have hie : g.input_ports.isEmpty = false := by
      simpa [List.isEmpty_iff] using hne
    simp [GateItem.compute_result, hg, hie, foldl_and_eq_all]

/-- Claim C10, witness for `claim10_and_total`: the inputless AND gate
evaluates to `false`; a fresh two-input AND gate evaluates to the
conjunction of its two resolved inputs. -/
theorem claim10_witness :
    (andGateEmpty.compute_output [] (fun _ => none) 0 (fun _ => none)).1 = false ∧
    ((GateItem.init "AND" 0).compute_output [] (fun _ => none) 0 (fun _ => none)).1
      = (GateItem.init "AND" 0).input_ports.all
          (fun ip => ip.get_value [] ((fun _ => none) ip.port_id)) :=
  ⟨(claim10_and_total andGateEmpty [] (fun _ => none) 0 (fun _ => none) rfl).1 rfl,
   (claim10_and_total (GateItem.init "AND" 0) [] (fun _ => none) 0
      (fun _ => none) rfl).2 (by decide)⟩

end FUP
